import Mathlib

/-!
Shallow embedding of the debate-competition orchestrator
(source: debate_experiment.py) for verification of its specification.

Modelling conventions:
* Python/JSON values are modelled by `PyVal` (null, string, integer, object);
  numeric JSON payloads are modelled as integers, since no claim depends on
  fractional values (a Python float 0.0 corresponds to `PyVal.num 0`).
* Python dicts are association lists `PyDict`; `dictGet d k` models
  `d.get(k)` (returning None both when the key is absent and when it is
  stored as null), `dictGetD d k v` models `d.get(k, v)`, and `dictSet`
  models item assignment.
* Fallible backend calls (the OpenAI chat-completion adapter) are modelled as
  functions into `Except BackendError ModelResult`; an `Except.error` is a
  raised exception that propagates unless the embedding catches it, exactly
  mirroring Python control flow.
* `json.loads` (standard library) is an abstract decoder parameter
  `loads : String -> Option PyDict`; `Option.none` models a raised
  `json.JSONDecodeError`, which the source catches.
* Wall-clock timing (`time.time`, `duration_seconds`) and the random
  `unique_id` are external effects and are omitted from the record model;
  no claim concerns them.
* Model responses (`message.content`) are modelled as `String`.
-/

namespace Debate

/-- A Python/JSON value as manipulated by the orchestrator. -/
inductive PyVal where
  | none
  | str (s : String)
  | num (n : Int)
  | objV (fields : List (String × PyVal))

/-- A Python dict with string keys, as produced by `json.loads`. -/
abbrev PyDict := List (String × PyVal)

/-- Python truthiness (`bool(v)`) for the values we model. -/
def truthy : PyVal → Bool
  | PyVal.none => false
  | PyVal.str s => !(s == "")
  | PyVal.num n => !(n == 0)
  | PyVal.objV l => !l.isEmpty

/-- Python `v == s` where `s` is a string constant: true only for an
equal string value. -/
def pyEqStr (v : PyVal) (s : String) : Bool :=
  match v with
  | PyVal.str t => t == s
  | _ => false

/-- Python `v is None`. -/
def pyIsNone : PyVal → Bool
  | PyVal.none => true
  | _ => false

/-- Python `v or d`. -/
def pyOr (v d : PyVal) : PyVal :=
  if truthy v then v else d

/-- Python `int(v or 0)` / `float(v or 0.0)` for the numeric payloads we
model (non-numeric truthy values, which would raise in Python, are not in
the modelled domain and map to 0). -/
def pyOrZeroInt (v : PyVal) : Int :=
  if truthy v then
    match v with
    | PyVal.num n => n
    | _ => 0
  else 0

/-- Python `d.get(k, dflt)`: the stored value (which may itself be null)
when the key is present, else the default. -/
def dictGetD (d : PyDict) (k : String) (dflt : PyVal) : PyVal :=
  match d with
  | [] => dflt
  | p :: rest => if p.1 == k then p.2 else dictGetD rest k dflt

/-- Python `d.get(k)` (default None). -/
def dictGet (d : PyDict) (k : String) : PyVal :=
  dictGetD d k PyVal.none

/-- Python `d[k] = v`: replace the value at an existing key in place,
else append the new binding (insertion order preserved; keys are unique in
dicts produced by `json.loads`). -/
def dictSet (d : PyDict) (k : String) (v : PyVal) : PyDict :=
  match d with
  | [] => [(k, v)]
  | p :: rest => if p.1 == k then (k, v) :: rest else p :: dictSet rest k v

/-! ### String utilities modelling the Python `str` methods used by the
source (implemented by structural recursion so that concrete runs reduce
in the kernel). -/

/-- Whitespace stripped by Python `str.strip()` / `str.lstrip()`. -/
def pyIsSpace (c : Char) : Bool :=
  c == ' ' || c == '\t' || c == '\n' || c == '\r' ||
    c == Char.ofNat 11 || c == Char.ofNat 12

/-- Drop characters satisfying `p` from both ends of a character list. -/
def stripList (p : Char → Bool) (l : List Char) : List Char :=
  ((l.dropWhile p).reverse.dropWhile p).reverse

/-- Python `s.strip()`. -/
def pyStrip (s : String) : String :=
  String.mk (stripList pyIsSpace s.toList)

/-- Python `s.lstrip()`. -/
def pyLStrip (s : String) : String :=
  String.mk (s.toList.dropWhile pyIsSpace)

/-- The backtick character (Unicode 96). -/
def backtick : Char := Char.ofNat 96

/-- Python `s.strip(c)` for a single strip character. -/
def pyStripChar (c : Char) (s : String) : String :=
  String.mk (stripList (fun x => x == c) s.toList)

/-- Python `s.startswith(pre)`. -/
def pyStartsWith (s pre : String) : Bool :=
  pre.toList.isPrefixOf s.toList

/-- Python `s[n:]` (drop the first `n` characters). -/
def pyDrop (s : String) (n : Nat) : String :=
  String.mk (s.toList.drop n)

/-- Leftmost, non-overlapping replacement of `pat` by `rep`, with fuel for
structural recursion; `pyReplace` supplies fuel equal to the string length.
Faithful to Python `str.replace` for the non-empty patterns the source
uses. -/
def replaceChars (pat rep : List Char) : Nat → List Char → List Char
  | _, [] => []
  | 0, s => s
  | Nat.succ n, c :: rest =>
    if pat.isPrefixOf (c :: rest) then
      rep ++ replaceChars pat rep n (List.drop (pat.length - 1) rest)
    else c :: replaceChars pat rep n rest

/-- Python `s.replace(pat, rep)` (for non-empty `pat`). -/
def pyReplace (s pat rep : String) : String :=
  String.mk (replaceChars pat.toList rep.toList s.toList.length s.toList)

/-! ### Direct embeddings of the pure functions of debate_experiment.py -/

/-- `render_prompt`: literal substitution of each variable, wrapped in
double braces, into the template (source lines 93-97). -/
def render_prompt (template : String) (vars : List (String × String)) : String :=
  vars.foldl
    (fun result kv => pyReplace result ("\x7b\x7b" ++ kv.1 ++ "\x7d\x7d") kv.2)
    template

/-- Result of one backend chat call (`call_model`, source lines 100-110):
model name, response text, optional usage payload. -/
structure ModelResult where
  model : String
  content : String
  usage : Option PyDict

/-- One chat message (role, content). -/
structure Msg where
  role : String
  content : String

/-- A failed backend call (an exception raised inside the OpenAI client). -/
inductive BackendError where
  | mk (msg : String)

/-- The six usage fields returned (as a tuple) by `extract_usage_fields`. -/
structure UsageFields where
  cost : Int
  completion_tokens : Int
  prompt_tokens : Int
  total_tokens : Int
  reasoning : String
  reasoning_tokens : Int

/-- `extract_usage_fields` (source lines 148-161): absent or empty usage
payloads yield all-zero fields; otherwise cost falls back from
`total_cost` to `cost`, and each token count defaults to 0. -/
def extract_usage_fields (usage : Option PyDict) : UsageFields :=
  match usage with
  | Option.none => ⟨0, 0, 0, 0, "", 0⟩
  | Option.some u =>
    if u.isEmpty then ⟨0, 0, 0, 0, "", 0⟩
    else
      let cost0 := dictGet u "total_cost"
      let cost := if pyIsNone cost0 then dictGetD u "cost" (PyVal.num 0) else cost0
      ⟨pyOrZeroInt cost,
       pyOrZeroInt (dictGet u "completion_tokens"),
       pyOrZeroInt (dictGet u "prompt_tokens"),
       pyOrZeroInt (dictGet u "total_tokens"),
       "",
       pyOrZeroInt (dictGet u "reasoning_tokens")⟩

/-- `merge_responses` (source lines 119-123): join the history into
"Round i:\ncontent" blocks separated by blank lines. -/
def merge_responses (history : List ModelResult) : String :=
  String.intercalate "\n\n"
    (history.enum.map (fun p => "Round " ++ toString (p.1 + 1) ++ ":\n" ++ p.2.content))

/-- `build_opponent_variables` (source lines 126-137): empty for round 1;
otherwise one binding of the opponent round `round_index - 1` content under
the key `LABEL_ROUND_(round_index - 1)`, guarded against short histories. -/
def build_opponent_variables (round_index : Nat) (opponent_history : List ModelResult)
    (opponent_label : String) : List (String × String) :=
  if round_index ≤ 1 then []
  else
    let target_index := round_index - 2
    match opponent_history.get? target_index with
    | Option.none => []
    | Option.some r =>
      [(opponent_label ++ "_ROUND_" ++ toString (round_index - 1), r.content)]

/-- The fence-stripping step of `parse_jury_response` (source lines
167-171): strip whitespace; if the text starts with a triple backtick,
strip backticks from both ends and an optional leading "json" tag. -/
def cleanResponse (text : String) : String :=
  let cleaned := pyStrip text
  if pyStartsWith cleaned "```" then
    let c := pyStripChar backtick cleaned
    if pyStartsWith c "json" then pyLStrip (pyDrop c 4) else c
  else cleaned

/-- `parse_jury_response` (source lines 164-175): empty text gives an empty
dict; otherwise clean the fencing and decode, a decode error (`loads`
returning none) giving an empty dict instead of raising. -/
def parse_jury_response (loads : String → Option PyDict) (text : String) : PyDict :=
  if text = "" then []
  else
    match loads (cleanResponse text) with
    | Option.some d => d
    | Option.none => []

/-- The side map recording which true side was shown to the judge under
each presented label (source lines 192-195). -/
structure SideMap where
  A : String
  B : String

/-- `remap_winner` (source lines 223-228): translate a presentation-space
winner through the side map; anything else falls back to itself or "". -/
def remap_winner (raw_winner : PyVal) (side_map : SideMap) : PyVal :=
  if pyEqStr raw_winner "Side A" then PyVal.str ("Side " ++ side_map.A)
  else if pyEqStr raw_winner "Side B" then PyVal.str ("Side " ++ side_map.B)
  else pyOr raw_winner (PyVal.str "")

/-- `normalize_jury_scores` (source lines 231-242): identity when no
blinding occurred, otherwise swap the A and B score fields while keeping
winner, reasoning and general. -/
def normalize_jury_scores (parsed : PyDict) (side_map : SideMap) : PyDict :=
  if side_map.A = "A" then parsed
  else
    [("total_score_A", dictGet parsed "total_score_B"),
     ("total_score_B", dictGet parsed "total_score_A"),
     ("detailed_scores_A", dictGet parsed "detailed_scores_B"),
     ("detailed_scores_B", dictGet parsed "detailed_scores_A"),
     ("winner", dictGet parsed "winner"),
     ("reasoning", dictGet parsed "reasoning"),
     ("general", dictGet parsed "general")]

/-- `is_valid_jury` (source lines 245-253): reject the empty parse, a
winner outside the two side labels, or a missing/null total score. -/
def is_valid_jury (parsed : PyDict) : Bool :=
  if parsed.isEmpty then false
  else if !(pyEqStr (dictGet parsed "winner") "Side A" ||
            pyEqStr (dictGet parsed "winner") "Side B") then false
  else !pyIsNone (dictGet parsed "total_score_A") &&
       !pyIsNone (dictGet parsed "total_score_B")

/-- The de-blinding pipeline applied per judge in `run_debate` (source
lines 409-418): remap the raw winner through the side map, write it back,
then normalize the score fields. -/
def deblind_parsed (jury_parsed_raw : PyDict) (side_map : SideMap) : PyDict :=
  let remapped_winner :=
    remap_winner (dictGetD jury_parsed_raw "winner" (PyVal.str "")) side_map
  normalize_jury_scores (dictSet jury_parsed_raw "winner" remapped_winner) side_map

/-! ### The jury evaluation call (`run_jury_evaluation`, source lines 178-220) -/

/-- What `run_jury_evaluation` returns per judge. -/
structure JuryResult where
  judge_model : String
  side_map : SideMap
  prompt : String
  raw_response : String
  usage : Option PyDict

/-- The blinding step of `run_jury_evaluation` (source lines 190-195):
the two presented transcripts and the side map; under blinding the texts
are swapped and the map records the swap. -/
def jurySides (history_a history_b : List ModelResult) (blind : Bool) :
    String × String × SideMap :=
  let side_a_text := merge_responses history_a
  let side_b_text := merge_responses history_b
  if blind then (side_b_text, side_a_text, ⟨"B", "A"⟩)
  else (side_a_text, side_b_text, ⟨"A", "B"⟩)

/-- `run_jury_evaluation`: render the judge prompt over the (possibly
swapped) transcripts, make one backend call, and package the raw
response with the side map. A failing call propagates as an error. -/
def run_jury_evaluation (loadPrompt : String → String)
    (call : List Msg → Except BackendError ModelResult)
    (judge_model topic conditions : String)
    (history_a history_b : List ModelResult) (blind : Bool) :
    Except BackendError JuryResult :=
  let judge_template := loadPrompt "judge/judge_evaluation.txt"
  let s := jurySides history_a history_b blind
  let rendered_prompt := render_prompt judge_template
    [("TOPIC", topic), ("CONDITIONS", conditions),
     ("SIDE_A_TEXT", s.1), ("SIDE_B_TEXT", s.2.1)]
  let messages : List Msg :=
    [⟨"system", "You are a neutral debate judge."⟩, ⟨"user", rendered_prompt⟩]
  match call messages with
  | Except.error e => Except.error e
  | Except.ok result =>
    Except.ok ⟨judge_model, s.2.2, rendered_prompt, result.content, result.usage⟩

/-! ### The round loop of `run_debate` (source lines 264-381) -/

/-- Run-level usage totals. -/
structure Totals where
  cost : Int
  completion_tokens : Int
  prompt_tokens : Int
  total_tokens : Int
  reasoning_tokens : Int

/-- Add one calls extracted usage into the totals. -/
def addUsage (t : Totals) (u : UsageFields) : Totals :=
  ⟨t.cost + u.cost, t.completion_tokens + u.completion_tokens,
   t.prompt_tokens + u.prompt_tokens, t.total_tokens + u.total_tokens,
   t.reasoning_tokens + u.reasoning_tokens⟩

/-- One entry of `rounds_log` (wall-clock duration omitted; see header). -/
structure RoundEntry where
  id : Nat
  side : String
  prompt : String
  content : String
  cost : Int
  completion_tokens : Int
  prompt_tokens : Int
  total_tokens : Int
  reasoning : String
  reasoning_tokens : Int

/-- The mutable state threaded through the round loop. -/
structure RoundsState where
  history_a : List ModelResult
  history_b : List ModelResult
  messages_a : List Msg
  messages_b : List Msg
  rounds_log : List RoundEntry
  totals : Totals

/-- One judge configuration: model name plus its backend-call capability
(the client and model name of the source fused into one adapter). -/
structure JudgeCfg where
  model : String
  call : List Msg → Except BackendError ModelResult

/-- Everything `run_debate` consumes: prompt loading, the JSON decoder,
the two debater backends, the judges, names, topic/conditions, blinding. -/
structure RunCfg where
  loadPrompt : String → String
  loads : String → Option PyDict
  callA : List Msg → Except BackendError ModelResult
  callB : List Msg → Except BackendError ModelResult
  judges : List JudgeCfg
  model_a : String
  model_b : String
  topic : String
  conditions : String
  blind_jury : Bool

/-- The four fixed round template files (source lines 264-269). -/
def roundFiles : List String :=
  ["round1_opening.txt", "round2_rebuttal.txt",
   "round3_assumptions.txt", "round4_closing.txt"]

/-- One iteration of the round loop (source lines 295-381): debater A is
prompted with the opponent context one round behind, called, logged; only
then is debater B prompted (now seeing the updated history of A, still one
round behind), called and logged. Either call failing aborts the round. -/
def stepRound (cfg : RunCfg) (st : RoundsState) (i : Nat) (round_file : String) :
    Except BackendError RoundsState :=
  let round_template_a := cfg.loadPrompt ("model_a/" ++ round_file)
  let round_template_b := cfg.loadPrompt ("model_b/" ++ round_file)
  let variables_a := [("TOPIC", cfg.topic), ("CONDITIONS", cfg.conditions)] ++
    build_opponent_variables i st.history_b "MODEL_B"
  let prompt_a := render_prompt round_template_a variables_a
  let messages_a1 := st.messages_a ++ [⟨"user", prompt_a⟩]
  match cfg.callA messages_a1 with
  | Except.error e => Except.error e
  | Except.ok result_a =>
    let history_a1 := st.history_a ++ [result_a]
    let messages_a2 := messages_a1 ++ [⟨"assistant", result_a.content⟩]
    let ua := extract_usage_fields result_a.usage
    let entry_a : RoundEntry :=
      ⟨i, "A", prompt_a, result_a.content, ua.cost, ua.completion_tokens,
       ua.prompt_tokens, ua.total_tokens, ua.reasoning, ua.reasoning_tokens⟩
    let variables_b := [("TOPIC", cfg.topic), ("CONDITIONS", cfg.conditions)] ++
      build_opponent_variables i history_a1 "MODEL_A"
    let prompt_b := render_prompt round_template_b variables_b
    let messages_b1 := st.messages_b ++ [⟨"user", prompt_b⟩]
    match cfg.callB messages_b1 with
    | Except.error e => Except.error e
    | Except.ok result_b =>
      let history_b1 := st.history_b ++ [result_b]
      let messages_b2 := messages_b1 ++ [⟨"assistant", result_b.content⟩]
      let ub := extract_usage_fields result_b.usage
      let entry_b : RoundEntry :=
        ⟨i, "B", prompt_b, result_b.content, ub.cost, ub.completion_tokens,
         ub.prompt_tokens, ub.total_tokens, ub.reasoning, ub.reasoning_tokens⟩
      Except.ok ⟨history_a1, history_b1, messages_a2, messages_b2,
        st.rounds_log ++ [entry_a, entry_b],
        addUsage (addUsage st.totals ua) ub⟩

/-- The state before round 1 (source lines 280-293): empty histories and
log, both message threads seeded with the shared system prompt. -/
def initRounds (cfg : RunCfg) : RoundsState :=
  let system_prompt := cfg.loadPrompt "system.txt"
  ⟨[], [], [⟨"system", system_prompt⟩], [⟨"system", system_prompt⟩], [],
   ⟨0, 0, 0, 0, 0⟩⟩

/-- The whole four-round exchange. -/
def runRoundsOf (cfg : RunCfg) : Except BackendError RoundsState :=
  roundFiles.enum.foldlM (fun st p => stepRound cfg st (p.1 + 1) p.2)
    (initRounds cfg)

/-! ### The jury loop and aggregation of `run_debate` (source lines 383-486) -/

/-- One entry of the `juries` list of the record (source lines 423-435). -/
structure JuryEntry where
  model : String
  prompt : String
  content : String
  cost : Int
  completion_tokens : Int
  prompt_tokens : Int
  total_tokens : Int
  reasoning : String
  reasoning_tokens : Int
  blind : Bool
  side_map : SideMap

/-- State threaded through the judge loop: judge records, the parallel
list of validated parsed verdicts, and the running usage totals. -/
structure JuryAcc where
  jury_results : List JuryEntry
  jury_parsed_list : List PyDict
  totals : Totals

/-- One iteration of the judge loop (source lines 385-436): call the
judge (a failure propagates), accumulate its usage, parse and de-blind its
verdict, and keep it only when `is_valid_jury` accepts it. -/
def processJudge (cfg : RunCfg) (history_a history_b : List ModelResult)
    (acc : JuryAcc) (jcfg : JudgeCfg) : Except BackendError JuryAcc :=
  match run_jury_evaluation cfg.loadPrompt jcfg.call jcfg.model cfg.topic
      cfg.conditions history_a history_b cfg.blind_jury with
  | Except.error e => Except.error e
  | Except.ok jury_result =>
    let ju := extract_usage_fields jury_result.usage
    let totals1 := addUsage acc.totals ju
    let jury_parsed_raw := parse_jury_response cfg.loads jury_result.raw_response
    let jury_parsed := deblind_parsed jury_parsed_raw jury_result.side_map
    if is_valid_jury jury_parsed then
      Except.ok ⟨acc.jury_results ++
        [⟨jcfg.model, jury_result.prompt, jury_result.raw_response, ju.cost,
          ju.completion_tokens, ju.prompt_tokens, ju.total_tokens, ju.reasoning,
          ju.reasoning_tokens, cfg.blind_jury, jury_result.side_map⟩],
        acc.jury_parsed_list ++ [jury_parsed], totals1⟩
    else
      Except.ok ⟨acc.jury_results, acc.jury_parsed_list, totals1⟩

/-- The winner list (source line 440): the winner field of each parsed
verdict, keeping only truthy values. -/
def winnersOf (jury_parsed_list : List PyDict) : List PyVal :=
  (jury_parsed_list.map (fun item => dictGet item "winner")).filter truthy

/-- `winners.count(s)` (source line 441). -/
def countWinner (winners : List PyVal) (s : String) : Nat :=
  winners.countP (fun v => pyEqStr v s)

/-- The decision rule (source lines 442-446): empty winner when no verdict
carries one, otherwise Side A wins ties. -/
def finalWinnerOf (jury_parsed_list : List PyDict) : String :=
  let winners := winnersOf jury_parsed_list
  if winners.isEmpty then ""
  else if countWinner winners "Side A" ≥ countWinner winners "Side B" then "Side A"
  else "Side B"

/-- The representative-text loop (source lines 447-453): scan the parsed
verdicts in order and take reasoning/general from the first one whose
winner equals the final winner, stopping there. -/
def pickRep (final_winner : String) : List PyDict → PyVal × PyVal → PyVal × PyVal
  | [], acc => acc
  | parsed :: rest, acc =>
    if pyEqStr (dictGet parsed "winner") final_winner then
      (pyOr (dictGetD parsed "reasoning" (PyVal.str "")) acc.1,
       pyOr (dictGetD parsed "general" (PyVal.str "")) acc.2)
    else pickRep final_winner rest acc

/-- The persisted record (source lines 464-485); the random id and the
wall-clock durations are omitted (see header). -/
structure DebateRecord where
  topic : String
  conditions : String
  lang : String
  proposition : String
  opposition : String
  jury : String
  rounds : List RoundEntry
  juries : List JuryEntry
  parsed : List PyDict
  winner_counts : Nat × Nat
  general : PyVal
  winner : String
  winning_reason : PyVal
  totals : Totals

/-- `run_debate` (source lines 254-489): run the four rounds (a debater
call failure aborts), run every judge (a judge call failure aborts),
aggregate the valid verdicts and build the record that `save_jsonl`
appends. `Except.ok` is a persisted record, `Except.error` an aborted run
with no record. -/
def run_debate (cfg : RunCfg) : Except BackendError DebateRecord :=
  match runRoundsOf cfg with
  | Except.error e => Except.error e
  | Except.ok st =>
    match cfg.judges.foldlM (processJudge cfg st.history_a st.history_b)
        (⟨[], [], st.totals⟩ : JuryAcc) with
    | Except.error e => Except.error e
    | Except.ok acc =>
      let final_winner := finalWinnerOf acc.jury_parsed_list
      let rep := pickRep final_winner acc.jury_parsed_list (PyVal.str "", PyVal.str "")
      Except.ok ⟨cfg.topic, cfg.conditions, "en", cfg.model_a, cfg.model_b,
        String.intercalate "," (cfg.judges.map (fun j => j.model)),
        st.rounds_log, acc.jury_results, acc.jury_parsed_list,
        (countWinner (winnersOf acc.jury_parsed_list) "Side A",
         countWinner (winnersOf acc.jury_parsed_list) "Side B"),
        rep.2, final_winner, rep.1, acc.totals⟩

/-! ### Concrete scenario configurations used by witnesses and examples -/

/-- Zero totals. -/
def emptyTotals : Totals := ⟨0, 0, 0, 0, 0⟩

/-- A default record (used only as a `getD` fallback). -/
def emptyRecord : DebateRecord :=
  ⟨"", "", "", "", "", "", [], [], [], (0, 0), PyVal.str "", "", PyVal.str "", emptyTotals⟩

/-- A default jury result (used only as a `getD` fallback). -/
def emptyJuryResult : JuryResult := ⟨"", ⟨"A", "B"⟩, "", "", Option.none⟩

/-- A successful debater response with no usage payload. -/
def okModelResult : ModelResult := ⟨"m", "hello", Option.none⟩

/-- The error raised by the failing judge backend of `cfgJudgeFailure`. -/
def judgeDownError : BackendError := BackendError.mk "judge backend down"

/-- A judge whose backend call always raises. -/
def failingJudge : JudgeCfg := ⟨"judge-down", fun _ => Except.error judgeDownError⟩

/-- A run whose debater calls all succeed but whose single judge call
raises a backend error. -/
def cfgJudgeFailure : RunCfg :=
  ⟨fun _ => "", fun _ => Option.none,
   fun _ => Except.ok okModelResult, fun _ => Except.ok okModelResult,
   [failingJudge], "model-a", "model-b", "topic", "", false⟩

/-- The (successful) round-phase state of `cfgJudgeFailure`. -/
def stJudgeFailure : RoundsState :=
  (runRoundsOf cfgJudgeFailure).toOption.getD (initRounds cfgJudgeFailure)

/-- A judge whose backend call succeeds but returns unparsable text. -/
def garbageJudge : JudgeCfg :=
  ⟨"judge1", fun _ => Except.ok ⟨"judge1", "not structured", Option.none⟩⟩

/-- A run that completes with zero valid verdicts: the single judge
returns text the decoder rejects. -/
def cfgNoValid : RunCfg :=
  ⟨fun _ => "", fun _ => Option.none,
   fun _ => Except.ok okModelResult, fun _ => Except.ok okModelResult,
   [garbageJudge], "model-a", "model-b", "topic", "", false⟩

/-- The record persisted by `cfgNoValid`. -/
def recNoValid : DebateRecord := (run_debate cfgNoValid).toOption.getD emptyRecord

/-- The (successful) round-phase state of `cfgNoValid`. -/
def stNoValid : RoundsState :=
  (runRoundsOf cfgNoValid).toOption.getD (initRounds cfgNoValid)

/-- The jury result returned for `garbageJudge` on empty histories. -/
def jrNoValid : JuryResult :=
  (run_jury_evaluation cfgNoValid.loadPrompt garbageJudge.call garbageJudge.model
    cfgNoValid.topic cfgNoValid.conditions [] [] cfgNoValid.blind_jury).toOption.getD
    emptyJuryResult

/-- The raw verdict of the blind end-to-end scenario: presentation-space
winner Side A with scores 18 against 12. -/
def sampleVerdict : PyDict :=
  [("winner", PyVal.str "Side A"), ("total_score_A", PyVal.num 18),
   ("total_score_B", PyVal.num 12), ("reasoning", PyVal.str "strong case"),
   ("general", PyVal.str "close debate")]

/-- A judge returning the token the blind-scenario decoder recognises. -/
def blindJudge : JudgeCfg :=
  ⟨"judge1", fun _ => Except.ok ⟨"judge1", "V", Option.none⟩⟩

/-- The blind end-to-end scenario: one judge, blinding on, verdict
`sampleVerdict`. -/
def cfgBlindScenario : RunCfg :=
  ⟨fun _ => "", fun s => if s == "V" then Option.some sampleVerdict else Option.none,
   fun _ => Except.ok okModelResult, fun _ => Except.ok okModelResult,
   [blindJudge], "model-a", "model-b", "topic", "", true⟩

/-- Two verdicts tied one to one. -/
def tieVerdicts : List PyDict :=
  [[("winner", PyVal.str "Side A")], [("winner", PyVal.str "Side B")]]

/-- First Side A verdict of the majority example. -/
def verdictA1 : PyDict :=
  [("winner", PyVal.str "Side A"), ("reasoning", PyVal.str "first reason"),
   ("general", PyVal.str "first summary")]

/-- Second Side A verdict of the majority example. -/
def verdictA2 : PyDict :=
  [("winner", PyVal.str "Side A"), ("reasoning", PyVal.str "second reason"),
   ("general", PyVal.str "second summary")]

/-- The dissenting Side B verdict of the majority example. -/
def verdictB3 : PyDict :=
  [("winner", PyVal.str "Side B"), ("reasoning", PyVal.str "dissent"),
   ("general", PyVal.str "dissent summary")]

/-- The 2-1 majority example. -/
def majorityVerdicts : List PyDict := [verdictA1, verdictA2, verdictB3]

/-- An opponent history of one completed round. -/
def histB1 : List ModelResult := [⟨"model-b", "b-round-1", Option.none⟩]

/-- An opponent history of two completed rounds. -/
def histA2 : List ModelResult :=
  [⟨"model-a", "a-round-1", Option.none⟩, ⟨"model-a", "a-round-2", Option.none⟩]

/-! ### Helper lemmas -/

theorem pyEqStr_iff (v : PyVal) (s : String) :
    pyEqStr v s = true ↔ v = PyVal.str s := by
  cases v <;> simp [pyEqStr]

theorem pyIsNone_false_iff (v : PyVal) :
    pyIsNone v = false ↔ v ≠ PyVal.none := by
  cases v <;> simp [pyIsNone]

theorem dictGetD_eq_dictGet (d : PyDict) (k : String) (dflt : PyVal)
    (h : dictGet d k ≠ PyVal.none) : dictGetD d k dflt = dictGet d k := by
  induction d with
  | nil => exact absurd rfl h
  | cons p rest ih =>
    unfold dictGet dictGetD at h ⊢
    by_cases hp : (p.1 == k) = true
    · simp [hp]
    · have hp2 : (p.1 == k) = false := eq_false_of_ne_true hp
      simp only [hp2, Bool.false_eq_true, if_false] at h ⊢
      exact ih h

theorem dictGet_dictSet_self (d : PyDict) (k : String) (v : PyVal) :
    dictGet (dictSet d k v) k = v := by
  induction d with
  | nil => simp [dictGet, dictGetD, dictSet]
  | cons p rest ih =>
    unfold dictSet
    by_cases hp : (p.1 == k) = true
    · simp [hp, dictGet, dictGetD]
    · have hp2 : (p.1 == k) = false := eq_false_of_ne_true hp
      simp only [hp2, Bool.false_eq_true, if_false]
      unfold dictGet dictGetD
      simp only [hp2, Bool.false_eq_true, if_false]
      exact ih

theorem dictGet_dictSet_ne (d : PyDict) (k k2 : String) (v : PyVal) (h : k ≠ k2) :
    dictGet (dictSet d k v) k2 = dictGet d k2 := by
  have hkk : (k == k2) = false := by simp [h]
  induction d with
  | nil => simp [dictGet, dictGetD, dictSet, hkk]
  | cons p rest ih =>
    unfold dictSet
    by_cases hp : (p.1 == k) = true
    · have hpk : p.1 = k := by simpa using hp
      simp [dictGet, dictGetD, hp, hkk, hpk]
    · have hp2 : (p.1 == k) = false := eq_false_of_ne_true hp
      simp only [hp2, Bool.false_eq_true, if_false]
      unfold dictGet dictGetD
      by_cases hq : (p.1 == k2) = true
      · simp [hq]
      · have hq2 : (p.1 == k2) = false := eq_false_of_ne_true hq
        simp only [hq2, Bool.false_eq_true, if_false]
        exact ih

theorem deblind_blind_winner_A (d : PyDict)
    (h : dictGet d "winner" = PyVal.str "Side A") :
    dictGet (deblind_parsed d ⟨"B", "A"⟩) "winner" = PyVal.str "Side B" := by
  have hne : dictGet d "winner" ≠ PyVal.none := by
    rw [h]; exact fun hc => PyVal.noConfusion hc
  have hd : dictGetD d "winner" (PyVal.str "") = PyVal.str "Side A" := by
    rw [dictGetD_eq_dictGet _ _ _ hne, h]
  have hstep : dictGet (deblind_parsed d ⟨"B", "A"⟩) "winner"
      = remap_winner (dictGetD d "winner" (PyVal.str "")) ⟨"B", "A"⟩ :=
    dictGet_dictSet_self d "winner" _
  rw [hstep, hd]
  rfl

theorem deblind_blind_winner_B (d : PyDict)
    (h : dictGet d "winner" = PyVal.str "Side B") :
    dictGet (deblind_parsed d ⟨"B", "A"⟩) "winner" = PyVal.str "Side A" := by
  have hne : dictGet d "winner" ≠ PyVal.none := by
    rw [h]; exact fun hc => PyVal.noConfusion hc
  have hd : dictGetD d "winner" (PyVal.str "") = PyVal.str "Side B" := by
    rw [dictGetD_eq_dictGet _ _ _ hne, h]
  have hstep : dictGet (deblind_parsed d ⟨"B", "A"⟩) "winner"
      = remap_winner (dictGetD d "winner" (PyVal.str "")) ⟨"B", "A"⟩ :=
    dictGet_dictSet_self d "winner" _
  rw [hstep, hd]
  rfl

theorem is_valid_jury_eq (d : PyDict) :
    is_valid_jury d = true ↔
      ((dictGet d "winner" = PyVal.str "Side A" ∨ dictGet d "winner" = PyVal.str "Side B") ∧
       dictGet d "total_score_A" ≠ PyVal.none ∧ dictGet d "total_score_B" ≠ PyVal.none) := by
  unfold is_valid_jury
  by_cases he : d.isEmpty = true
  · have hd : d = [] := by
      cases d with
      | nil => rfl
      | cons p rest => simp [List.isEmpty] at he
    subst hd
    simp [dictGet, dictGetD]
  · have he2 : d.isEmpty = false := eq_false_of_ne_true he
    by_cases hw : (pyEqStr (dictGet d "winner") "Side A" ||
        pyEqStr (dictGet d "winner") "Side B") = true
    · simp only [he2, Bool.false_eq_true, if_false, hw, Bool.not_true, if_false]
      rw [Bool.or_eq_true, pyEqStr_iff, pyEqStr_iff] at hw
      simp [hw, Bool.and_eq_true, Bool.not_eq_true', pyIsNone_false_iff]
    · have hw2 := eq_false_of_ne_true hw
      rw [Bool.or_eq_true, pyEqStr_iff, pyEqStr_iff] at hw
      simp only [he2, Bool.false_eq_true, if_false, hw2, Bool.not_false, if_true]
      simp [hw]

theorem parse_failure_empty (loads : String → Option PyDict) (text : String)
    (hbad : text = "" ∨ loads (cleanResponse text) = Option.none) :
    parse_jury_response loads text = [] := by
  unfold parse_jury_response
  rcases hbad with hb | hb
  · simp [hb]
  · by_cases ht : text = ""
    · simp [ht]
    · simp [ht, hb]

theorem pickRep_first (pre post : List PyDict) (d : PyDict) (fw : String)
    (hpre : ∀ d2 ∈ pre, pyEqStr (dictGet d2 "winner") fw = false)
    (hd : pyEqStr (dictGet d "winner") fw = true) :
    pickRep fw (pre ++ d :: post) (PyVal.str "", PyVal.str "")
      = (pyOr (dictGetD d "reasoning" (PyVal.str "")) (PyVal.str ""),
         pyOr (dictGetD d "general" (PyVal.str "")) (PyVal.str "")) := by
  induction pre with
  | nil => simp [pickRep, hd]
  | cons p rest ih =>
    have hp := hpre p (List.mem_cons_self p rest)
    simp only [List.cons_append, pickRep, hp, Bool.false_eq_true, if_false]
    exact ih (fun d2 hm => hpre d2 (List.mem_cons_of_mem p hm))

theorem build_opponent_variables_eq (i : Nat) (hist : List ModelResult) (label : String)
    (hi : 2 ≤ i) (hlt : i - 2 < hist.length) :
    build_opponent_variables i hist label
      = [(label ++ "_ROUND_" ++ toString (i - 1), (hist.get ⟨i - 2, hlt⟩).content)] := by
  unfold build_opponent_variables
  rw [if_neg (by omega)]
  dsimp only
  rw [List.get?_eq_get hlt]

theorem stepRound_ok_log (cfg : RunCfg) (st : RoundsState) (i : Nat) (f : String)
    (st2 : RoundsState) (h : stepRound cfg st i f = Except.ok st2) :
    st2.rounds_log.map (fun e => (e.id, e.side))
      = st.rounds_log.map (fun e => (e.id, e.side)) ++ [(i, "A"), (i, "B")] := by
  simp only [stepRound] at h
  split at h
  · exact absurd h (by simp)
  · split at h
    · exact absurd h (by simp)
    · injection h with h2
      subst h2
      simp

theorem run_debate_ok_fields (cfg : RunCfg) (r : DebateRecord)
    (h : run_debate cfg = Except.ok r) (hz : r.parsed = []) :
    r.winner = "" ∧ r.winning_reason = PyVal.str "" ∧ r.general = PyVal.str "" := by
  unfold run_debate at h
  cases hr : runRoundsOf cfg with
  | error e => rw [hr] at h; exact absurd h (by simp)
  | ok st =>
  rw [hr] at h
  dsimp only at h
  cases ha : cfg.judges.foldlM (processJudge cfg st.history_a st.history_b)
      (⟨[], [], st.totals⟩ : JuryAcc) with
  | error e => rw [ha] at h; exact absurd h (by simp)
  | ok acc =>
  rw [ha] at h
  dsimp only at h
  injection h with h2
  subst h2
  dsimp only at hz ⊢
  rw [hz]
  exact ⟨rfl, rfl, rfl⟩

/-! ### Claims -/

/-- C1 (counterexample): in `cfgJudgeFailure` every debater call succeeds,
so the round phase completes, yet the single judge backend failure is not
caught at the jury boundary: `run_debate` aborts with that error and no
record is persisted, refuting the claim that the failure is caught, the
judge excluded, and the run continued. -/
theorem C1_judge_failure_not_caught :
    (runRoundsOf cfgJudgeFailure).toOption.isSome = true ∧
    run_debate cfgJudgeFailure = Except.error judgeDownError :=
  ⟨rfl, rfl⟩

/-- C1 (amended): a BackendError raised in a judge call is not caught:
whenever the round phase succeeds and the first configured judge backend
fails, the whole run aborts with that error and no record is persisted,
exactly as for a debater-side failure; only invalid or unparsable judge
output excludes a judge while the run continues. -/
theorem C1_judge_backend_failure_aborts_run (cfg : RunCfg) (j : JudgeCfg)
    (rest : List JudgeCfg) (e : BackendError) (st : RoundsState)
    (hj : cfg.judges = j :: rest)
    (hcall : ∀ msgs, j.call msgs = Except.error e)
    (hr : runRoundsOf cfg = Except.ok st) :
    run_debate cfg = Except.error e := by
  have hpj : processJudge cfg st.history_a st.history_b
      (⟨[], [], st.totals⟩ : JuryAcc) j = Except.error e := by
    unfold processJudge run_jury_evaluation
    dsimp only
    rw [hcall]
  unfold run_debate
  rw [hr]
  dsimp only
  rw [hj]
  simp only [List.foldlM]
  rw [hpj]
  rfl

/-- C1 (witness): the amended statement applied to the concrete failing
configuration. -/
theorem C1_amended_witness :
    run_debate cfgJudgeFailure = Except.error judgeDownError :=
  C1_judge_backend_failure_aborts_run cfgJudgeFailure failingJudge []
    judgeDownError stJudgeFailure rfl (fun _ => rfl) rfl

/-- C2: under the blind side map (A presented as true B and vice versa),
de-blinding swaps a raw winner Side A to Side B and Side B to Side A,
swaps total scores and detailed scores between the A and B fields, and
passes reasoning and general through unchanged; blinding itself presents
true side B text under the Side A slot with exactly that side map; and in
the blind end-to-end scenario the persisted record winner is Side B. -/
theorem C2_blind_deblinding (d : PyDict) :
    (dictGet d "winner" = PyVal.str "Side A" →
      dictGet (deblind_parsed d ⟨"B", "A"⟩) "winner" = PyVal.str "Side B") ∧
    (dictGet d "winner" = PyVal.str "Side B" →
      dictGet (deblind_parsed d ⟨"B", "A"⟩) "winner" = PyVal.str "Side A") ∧
    dictGet (deblind_parsed d ⟨"B", "A"⟩) "total_score_A" = dictGet d "total_score_B" ∧
    dictGet (deblind_parsed d ⟨"B", "A"⟩) "total_score_B" = dictGet d "total_score_A" ∧
    dictGet (deblind_parsed d ⟨"B", "A"⟩) "detailed_scores_A"
      = dictGet d "detailed_scores_B" ∧
    dictGet (deblind_parsed d ⟨"B", "A"⟩) "detailed_scores_B"
      = dictGet d "detailed_scores_A" ∧
    dictGet (deblind_parsed d ⟨"B", "A"⟩) "reasoning" = dictGet d "reasoning" ∧
    dictGet (deblind_parsed d ⟨"B", "A"⟩) "general" = dictGet d "general" ∧
    (∀ ha hb : List ModelResult,
      jurySides ha hb true
        = (merge_responses hb, merge_responses ha, (⟨"B", "A"⟩ : SideMap))) ∧
    (run_debate cfgBlindScenario).map (fun r => r.winner) = Except.ok "Side B" := by
  refine ⟨deblind_blind_winner_A d, deblind_blind_winner_B d, ?_, ?_, ?_, ?_, ?_, ?_,
    fun ha hb => rfl, rfl⟩
  · exact dictGet_dictSet_ne d "winner" "total_score_B"
      (remap_winner (dictGetD d "winner" (PyVal.str "")) ⟨"B", "A"⟩) (by decide)
  · exact dictGet_dictSet_ne d "winner" "total_score_A"
      (remap_winner (dictGetD d "winner" (PyVal.str "")) ⟨"B", "A"⟩) (by decide)
  · exact dictGet_dictSet_ne d "winner" "detailed_scores_B"
      (remap_winner (dictGetD d "winner" (PyVal.str "")) ⟨"B", "A"⟩) (by decide)
  · exact dictGet_dictSet_ne d "winner" "detailed_scores_A"
      (remap_winner (dictGetD d "winner" (PyVal.str "")) ⟨"B", "A"⟩) (by decide)
  · exact dictGet_dictSet_ne d "winner" "reasoning"
      (remap_winner (dictGetD d "winner" (PyVal.str "")) ⟨"B", "A"⟩) (by decide)
  · exact dictGet_dictSet_ne d "winner" "general"
      (remap_winner (dictGetD d "winner" (PyVal.str "")) ⟨"B", "A"⟩) (by decide)

/-- C2 (witness): the de-blinding conjuncts applied to the concrete raw
verdict of the blind scenario. -/
theorem C2_witness :
    dictGet (deblind_parsed sampleVerdict ⟨"B", "A"⟩) "winner" = PyVal.str "Side B" ∧
    dictGet (deblind_parsed sampleVerdict ⟨"B", "A"⟩) "total_score_A"
      = dictGet sampleVerdict "total_score_B" :=
  ⟨(C2_blind_deblinding sampleVerdict).1 rfl,
   (C2_blind_deblinding sampleVerdict).2.2.1⟩

/-- C3: whenever at least one verdict carries a non-empty winner, the
final winner is Side A exactly when the Side A count is greater than or
equal to the Side B count, and Side B otherwise; in particular the
one-to-one tie resolves to Side A. -/
theorem C3_majority_rule (l : List PyDict) (h : (winnersOf l).isEmpty = false) :
    finalWinnerOf l =
      (if countWinner (winnersOf l) "Side A" ≥ countWinner (winnersOf l) "Side B"
        then "Side A" else "Side B") ∧
    finalWinnerOf tieVerdicts = "Side A" := by
  constructor
  · simp only [finalWinnerOf, h, Bool.false_eq_true, if_false]
  · rfl

/-- C3 (witness): the majority rule applied to the concrete tie. -/
theorem C3_witness :
    (winnersOf tieVerdicts).isEmpty = false ∧
    finalWinnerOf tieVerdicts =
      (if countWinner (winnersOf tieVerdicts) "Side A"
          ≥ countWinner (winnersOf tieVerdicts) "Side B"
        then "Side A" else "Side B") :=
  ⟨rfl, (C3_majority_rule tieVerdicts rfl).1⟩

/-- C4: the representative reasoning and general summary come from the
first verdict, in original judge order, whose winner equals the final
winner, independently of all later verdicts; in the 2-1 majority example
they come from the first Side A verdict, not the second. -/
theorem C4_representative_first (pre post : List PyDict) (d : PyDict) (fw : String)
    (hpre : ∀ d2 ∈ pre, pyEqStr (dictGet d2 "winner") fw = false)
    (hd : pyEqStr (dictGet d "winner") fw = true) :
    pickRep fw (pre ++ d :: post) (PyVal.str "", PyVal.str "")
      = (pyOr (dictGetD d "reasoning" (PyVal.str "")) (PyVal.str ""),
         pyOr (dictGetD d "general" (PyVal.str "")) (PyVal.str "")) ∧
    finalWinnerOf majorityVerdicts = "Side A" ∧
    pickRep "Side A" majorityVerdicts (PyVal.str "", PyVal.str "")
      = (PyVal.str "first reason", PyVal.str "first summary") :=
  ⟨pickRep_first pre post d fw hpre hd, rfl, rfl⟩

/-- C4 (witness): the first-match rule applied to the concrete majority
example. -/
theorem C4_witness :
    pickRep "Side A" ([] ++ verdictA1 :: [verdictA2, verdictB3])
        (PyVal.str "", PyVal.str "")
      = (pyOr (dictGetD verdictA1 "reasoning" (PyVal.str "")) (PyVal.str ""),
         pyOr (dictGetD verdictA1 "general" (PyVal.str "")) (PyVal.str "")) :=
  (C4_representative_first [] [verdictA2, verdictB3] verdictA1 "Side A"
    (fun d2 hm => absurd hm (List.not_mem_nil d2)) rfl).1

/-- C5: `is_valid_jury` accepts a parsed verdict exactly when the winner is
Side A or Side B and both total scores are present (not absent or null);
and a verdict rejected by the predicate is dropped from aggregation (the
parsed list is unchanged) while the run continues. -/
theorem C5_validity_predicate (d : PyDict) :
    (is_valid_jury d = true ↔
      ((dictGet d "winner" = PyVal.str "Side A" ∨
        dictGet d "winner" = PyVal.str "Side B") ∧
       dictGet d "total_score_A" ≠ PyVal.none ∧
       dictGet d "total_score_B" ≠ PyVal.none)) ∧
    (∀ (cfg : RunCfg) (ha hb : List ModelResult) (acc : JuryAcc) (jcfg : JudgeCfg)
        (jr : JuryResult),
      run_jury_evaluation cfg.loadPrompt jcfg.call jcfg.model cfg.topic
        cfg.conditions ha hb cfg.blind_jury = Except.ok jr →
      is_valid_jury (deblind_parsed (parse_jury_response cfg.loads jr.raw_response)
        jr.side_map) = false →
      ∃ t, processJudge cfg ha hb acc jcfg
        = Except.ok ⟨acc.jury_results, acc.jury_parsed_list, t⟩) := by
  refine ⟨is_valid_jury_eq d, ?_⟩
  intro cfg ha hb acc jcfg jr h1 h2
  unfold processJudge
  rw [h1]
  dsimp only
  rw [h2]
  simp only [Bool.false_eq_true, if_false]
  exact ⟨_, rfl⟩

/-- C5 (witness): the characterisation applied to the concrete sample
verdict, and the drop behaviour applied to the concrete garbage judge. -/
theorem C5_witness :
    is_valid_jury sampleVerdict = true ∧
    (∃ t, processJudge cfgNoValid [] [] ⟨[], [], emptyTotals⟩ garbageJudge
      = Except.ok ⟨[], [], t⟩) :=
  ⟨(C5_validity_predicate sampleVerdict).1.mpr
      ⟨Or.inl rfl, fun hc => PyVal.noConfusion hc, fun hc => PyVal.noConfusion hc⟩,
   (C5_validity_predicate sampleVerdict).2 cfgNoValid [] [] ⟨[], [], emptyTotals⟩
      garbageJudge jrNoValid rfl rfl⟩

/-- C6: a run that persists a record with zero valid verdicts has an empty
final winner, winning reason and general summary rather than an error; and
the concrete zero-valid-verdict scenario does persist such a record. -/
theorem C6_no_winner_not_error (cfg : RunCfg) (r : DebateRecord)
    (h : run_debate cfg = Except.ok r) (hz : r.parsed = []) :
    (r.winner = "" ∧ r.winning_reason = PyVal.str "" ∧ r.general = PyVal.str "") ∧
    (run_debate cfgNoValid).map
        (fun rec => (rec.winner, rec.winning_reason, rec.general, rec.parsed))
      = Except.ok ("", PyVal.str "", PyVal.str "", ([] : List PyDict)) :=
  ⟨run_debate_ok_fields cfg r h hz, rfl⟩

/-- C6 (witness): the statement applied to the concrete record persisted
by the zero-valid-verdict run. -/
theorem C6_witness :
    (recNoValid.winner = "" ∧ recNoValid.winning_reason = PyVal.str "" ∧
     recNoValid.general = PyVal.str "") ∧
    (run_debate cfgNoValid).map
        (fun rec => (rec.winner, rec.winning_reason, rec.general, rec.parsed))
      = Except.ok ("", PyVal.str "", PyVal.str "", ([] : List PyDict)) :=
  C6_no_winner_not_error cfgNoValid recNoValid rfl rfl

/-- C7: an empty or undecodable judge response parses to the empty result
without raising, such a result is never a valid verdict, and the total
valid-verdict count is exactly one less than in a run where that judge
returned a valid verdict instead. -/
theorem C7_unparsable_is_dropped (loads : String → Option PyDict) (text : String)
    (pre post : List PyDict) (v : PyDict)
    (hbad : text = "" ∨ loads (cleanResponse text) = Option.none)
    (hvalid : is_valid_jury v = true) :
    parse_jury_response loads text = [] ∧
    is_valid_jury (parse_jury_response loads text) = false ∧
    (pre ++ v :: post).countP is_valid_jury
      = (pre ++ parse_jury_response loads text :: post).countP is_valid_jury + 1 := by
  have hp := parse_failure_empty loads text hbad
  have hz : is_valid_jury ([] : PyDict) = false := rfl
  refine ⟨hp, ?_, ?_⟩
  · rw [hp]; exact hz
  · rw [hp]
    simp [List.countP_append, List.countP_cons, hvalid, hz]
    omega

/-- C7 (witness): the statement applied to a concrete undecodable
response and the concrete valid sample verdict. -/
theorem C7_witness :
    parse_jury_response (fun _ => Option.none) "not json" = [] ∧
    is_valid_jury (parse_jury_response (fun _ => Option.none) "not json") = false ∧
    ([] ++ sampleVerdict :: []).countP is_valid_jury
      = ([] ++ parse_jury_response (fun _ => Option.none) "not json" :: []).countP
          is_valid_jury + 1 :=
  C7_unparsable_is_dropped (fun _ => Option.none) "not json" [] [] sampleVerdict
    (Or.inr rfl) rfl

/-- C8: every completed four-round exchange logs exactly eight round
entries, tagged round-major with ids one to four and side A before side B
within each round. -/
theorem C8_rounds_log_shape (cfg : RunCfg) (st : RoundsState)
    (h : runRoundsOf cfg = Except.ok st) :
    st.rounds_log.map (fun e => (e.id, e.side)) =
      [(1, "A"), (1, "B"), (2, "A"), (2, "B"),
       (3, "A"), (3, "B"), (4, "A"), (4, "B")] := by
  have hrw : runRoundsOf cfg =
      stepRound cfg (initRounds cfg) 1 "round1_opening.txt" >>= fun s1 =>
      stepRound cfg s1 2 "round2_rebuttal.txt" >>= fun s2 =>
      stepRound cfg s2 3 "round3_assumptions.txt" >>= fun s3 =>
      stepRound cfg s3 4 "round4_closing.txt" >>= fun s4 =>
      pure s4 := rfl
  rw [hrw] at h
  simp only [Bind.bind, Except.bind] at h
  cases h1 : stepRound cfg (initRounds cfg) 1 "round1_opening.txt" with
  | error e => rw [h1] at h; exact absurd h (by simp)
  | ok s1 =>
  rw [h1] at h
  dsimp only at h
  cases h2 : stepRound cfg s1 2 "round2_rebuttal.txt" with
  | error e => rw [h2] at h; exact absurd h (by simp)
  | ok s2 =>
  rw [h2] at h
  dsimp only at h
  cases h3 : stepRound cfg s2 3 "round3_assumptions.txt" with
  | error e => rw [h3] at h; exact absurd h (by simp)
  | ok s3 =>
  rw [h3] at h
  dsimp only at h
  cases h4 : stepRound cfg s3 4 "round4_closing.txt" with
  | error e => rw [h4] at h; exact absurd h (by simp)
  | ok s4 =>
  rw [h4] at h
  simp only [pure, Except.pure, Except.ok.injEq] at h
  subst h
  rw [stepRound_ok_log cfg s3 4 _ s4 h4, stepRound_ok_log cfg s2 3 _ s3 h3,
    stepRound_ok_log cfg s1 2 _ s2 h2, stepRound_ok_log cfg (initRounds cfg) 1 _ s1 h1]
  simp [initRounds]

/-- C8 (witness): the round-log shape of the concrete completed run. -/
theorem C8_witness :
    stNoValid.rounds_log.map (fun e => (e.id, e.side)) =
      [(1, "A"), (1, "B"), (2, "A"), (2, "B"),
       (3, "A"), (3, "B"), (4, "A"), (4, "B")] :=
  C8_rounds_log_shape cfgNoValid stNoValid rfl

/-- C9: for round i of a debate, with the opponent history holding i - 1
completed rounds when side A is prompted and i completed rounds when side
B is prompted, the opponent variables are exactly one binding naming round
i - 1 and holding the opponent round i - 1 content (for side B the
referenced index is strictly below the last entry, which holds round i),
and round 1 binds no opponent variables at all. -/
theorem C9_opponent_one_round_behind (i : Nat) (histB histA : List ModelResult)
    (lB lA : String) (hi : 2 ≤ i)
    (hB : histB.length = i - 1) (hA : histA.length = i) :
    build_opponent_variables i histB lB
      = [(lB ++ "_ROUND_" ++ toString (i - 1),
          (histB.get ⟨i - 2, by omega⟩).content)] ∧
    build_opponent_variables i histA lA
      = [(lA ++ "_ROUND_" ++ toString (i - 1),
          (histA.get ⟨i - 2, by omega⟩).content)] ∧
    i - 2 < histA.length - 1 ∧
    (∀ hist lbl, build_opponent_variables 1 hist lbl = []) :=
  ⟨build_opponent_variables_eq i histB lB hi (by omega),
   build_opponent_variables_eq i histA lA hi (by omega),
   by omega, fun hist lbl => rfl⟩

/-- C9 (witness): round 2 on concrete one-round and two-round histories
binds exactly the round-1 content of the opponent. -/
theorem C9_witness :
    build_opponent_variables 2 histB1 "MODEL_B" = [("MODEL_B_ROUND_1", "b-round-1")] ∧
    build_opponent_variables 2 histA2 "MODEL_A" = [("MODEL_A_ROUND_1", "a-round-1")] :=
  ⟨(C9_opponent_one_round_behind 2 histB1 histA2 "MODEL_B" "MODEL_A"
      (by decide) rfl rfl).1,
   (C9_opponent_one_round_behind 2 histB1 histA2 "MODEL_B" "MODEL_A"
      (by decide) rfl rfl).2.1⟩

/-- C10: extracting usage fields from an absent usage payload (a missing
payload or an empty dict) yields zero cost, zero token counts and an empty
reasoning string, and never raises; the same extractor serves both debater
round calls and judge calls. -/
theorem C10_absent_usage_is_zero :
    extract_usage_fields Option.none = ⟨0, 0, 0, 0, "", 0⟩ ∧
    extract_usage_fields (Option.some ([] : PyDict)) = ⟨0, 0, 0, 0, "", 0⟩ :=
  ⟨rfl, rfl⟩

end Debate
